import Mathlib

/-!
Shallow embedding of the formidablejs installer scaffolding pipeline
(`src/utils/scaffold.ts`, class `Scaffold`) and the `new` command gate
(`src/commands/new.ts`, class `New`), together with theorems checking the
natural-language specification against it.

JavaScript string operations (`trim`, `startsWith`, `split`, `join`,
`toLowerCase`) are embedded as executable functions over the character data
of a `String`, so every concrete instance can be settled by `decide`.
Nullable JavaScript values are embedded as `Option String`; the relevant
JavaScript truthiness cases (null / empty string) are modelled explicitly.
-/

/-- Whitespace test used by the embedded `trim`: the ASCII whitespace
characters that can occur in the configuration lines at issue. -/
def isWs (c : Char) : Bool := c == ' ' || c == '\t' || c == '\n' || c == '\r'

/-- Drop whitespace from both ends of a character list. -/
def trimChars (l : List Char) : List Char :=
  ((l.dropWhile isWs).reverse.dropWhile isWs).reverse

/-- Embedding of the JavaScript `line.trim()`. -/
def jsTrim (s : String) : String := ⟨trimChars s.data⟩

/-- Embedding of the JavaScript `s.startsWith(p)`. -/
def jsStartsWith (s p : String) : Bool := p.data.isPrefixOf s.data

/-- Split a character list at every occurrence of the separator; always
returns at least one (possibly empty) group, like JavaScript `split`. -/
def splitChars (sep : Char) (l : List Char) : List (List Char) :=
  l.foldr
    (fun c acc =>
      if c == sep then [] :: acc
      else
        match acc with
        | g :: gs => (c :: g) :: gs
        | [] => [[c]])
    [[]]

/-- Embedding of the JavaScript `s.split(sep)` for a one-character
separator. -/
def jsSplit (s : String) (sep : Char) : List String :=
  (splitChars sep s.data).map (fun g => ⟨g⟩)

/-- Embedding of the JavaScript `parts.join(sep)` for a one-character
separator. -/
def joinWith (sep : Char) (parts : List String) : String :=
  ⟨List.intercalate [sep] (parts.map String.data)⟩

/-- Lower-case an ASCII character, as `toLowerCase` does on the stack
identifiers at issue. -/
def lowerChar (c : Char) : Char :=
  if 'A' ≤ c ∧ c ≤ 'Z' then Char.ofNat (c.toNat + 32) else c

/-- Embedding of the JavaScript `s.toLowerCase()` (ASCII range). -/
def jsToLower (s : String) : String := ⟨s.data.map lowerChar⟩

/-- JavaScript truthiness of a nullable string: `null` and the empty string
are falsy. -/
def jsTruthy : Option String → Bool
  | none => false
  | some s => s ≠ ""

/-- The `IOnboarding` record of `src/commands/new.ts`: every field starts
as `null` and may be filled by a flag or a prompt. -/
structure Onboarding where
  type : Option String
  stack : Option String
  scaffolding : Option String
  database : Option String
  manager : Option String
deriving DecidableEq

/-- Embedding of `Scaffold.getDependencies` (src/unnamed/part_000 lines
172-193): pushes the pretty-errors package for full-stack, the view and
axios packages for imba+spa, the inertia package for react/vue, and the
database driver identifier when the database answer is truthy and not
`skip`, in exactly the source push order. -/
def getDependencies (o : Onboarding) : List String :=
  (if o.type = some "full-stack" then
    ["@formidablejs/pretty-errors"]
    ++ (if o.stack.map jsToLower = some "imba" ∧ o.scaffolding = some "spa" then
          ["@formidablejs/view", "axios"]
        else [])
    ++ (if jsTruthy o.stack = true ∧ (o.stack = some "react" ∨ o.stack = some "vue") then
          ["@formidablejs/inertia"]
        else [])
  else [])
  ++ (match o.database with
      | some d => if d ≠ "" ∧ d ≠ "skip" then [d] else []
      | none => [])

/-- The dependency rules exactly as the specification states them: four
independent rules whose contributions are concatenated in a fixed order. -/
def claimedDependencies (o : Onboarding) : List String :=
  (if o.type = some "full-stack" then ["@formidablejs/pretty-errors"] else [])
  ++ (if o.type = some "full-stack" ∧ o.stack = some "imba" ∧ o.scaffolding = some "spa" then
        ["@formidablejs/view", "axios"]
      else [])
  ++ (if o.type = some "full-stack" ∧ (o.stack = some "react" ∨ o.stack = some "vue") then
        ["@formidablejs/inertia"]
      else [])
  ++ (match o.database with
      | some d => if d ≠ "skip" then [d] else []
      | none => [])

/-- Well-formed onboarding answers: each field ranges over the values the
command flags and prompts can produce (spec section 3 data model). -/
def WellFormedOnboarding (o : Onboarding) : Prop :=
  o.type ∈ [none, some "api", some "full-stack"]
  ∧ o.stack ∈ [none, some "imba", some "react", some "vue"]
  ∧ o.scaffolding ∈ [none, some "blank", some "spa"]
  ∧ o.database ∈ [none, some "mysql", some "pg", some "sqlite3", some "tedious", some "oracledb", some "skip"]

instance (o : Onboarding) : Decidable (WellFormedOnboarding o) := by
  unfold WellFormedOnboarding
  infer_instance

/-- Modelled from the spec: the Line Mutator `updateLine`
(`src/utils/updateLine`, absent from the sources) reads the file, applies
the per-line transform to every line independently, and writes the lines
back in order (spec section 4.1). File contents are embedded as the list
of lines. -/
def updateLine (f : String → String) (lines : List String) : List String :=
  lines.map f

/-- The per-line transform of `Scaffold.commentOutClientUrl`
(src/unnamed/part_000 lines 278-284): a line whose trimmed text is the
fixed client-URL literal is replaced by the commented-out literal. -/
def clientUrlTransform (line : String) : String :=
  if jsTrim line = "CLIENT_URL=http://localhost:8000" then
    "# CLIENT_URL=http://localhost:8000"
  else line

/-- Embedding of `Scaffold.commentOutClientUrl` (src/unnamed/part_000
lines 275-287): a no-op unless the project type is full-stack, otherwise
the client-URL transform is applied to the `.env` lines. -/
def commentOutClientUrl (type : Option String) (env : List String) : List String :=
  if type ≠ some "full-stack" then env
  else updateLine clientUrlTransform env

/-- First per-line transform of `Scaffold.setSession` (src/unnamed/part_000
lines 297-303): rewrites the session driver line from memory to file. -/
def sessionDriverTransform (line : String) : String :=
  if jsTrim line = "driver: \x27memory\x27" then "  driver: \x27file\x27"
  else line

/-- Second per-line transform of `Scaffold.setSession`
(src/unnamed/part_000 lines 305-311): rewrites the same-site line from
none to lax. -/
def sessionSameSiteTransform (line : String) : String :=
  if jsTrim line = "same_site: helpers.env \x27SESSION_SAME_SITE\x27, \x27none\x27" then
    "\tsame_site: helpers.env \x27SESSION_SAME_SITE\x27, \x27lax\x27"
  else line

/-- Embedding of `Scaffold.setSession` (src/unnamed/part_000 lines
294-314): a no-op unless full-stack, otherwise the two session transforms
are applied to `config/session.imba` in order. -/
def setSession (type : Option String) (sessionCfg : List String) : List String :=
  if type ≠ some "full-stack" then sessionCfg
  else updateLine sessionSameSiteTransform (updateLine sessionDriverTransform sessionCfg)

/-- The `switch` of `Scaffold.setDatabase` (src/unnamed/part_000 lines
326-346): maps the database driver identifier to the connection name, and
anything else (including `null`) to the initial empty string. -/
def connectionFor (database : Option String) : String :=
  match database with
  | none => ""
  | some d =>
    if d = "mysql" then "mysql"
    else if d = "pg" then "pgsql"
    else if d = "sqlite3" then "sqlite"
    else if d = "tedious" then "mssql"
    else if d = "oracledb" then "oracle"
    else ""

/-- The `.env` per-line transform of `Scaffold.setDatabase`
(src/unnamed/part_000 lines 348-352): every line starting with
`DB_CONNECTION` is replaced by `DB_CONNECTION=` followed by the connection
name. -/
def dbConnectionTransform (conn : String) (line : String) : String :=
  if jsStartsWith line "DB_CONNECTION" = true then "DB_CONNECTION=" ++ conn
  else line

/-- The `config/database.imba` per-line transform of `Scaffold.setDatabase`
(src/unnamed/part_000 lines 355-361): rewrites the `useNullAsDefault`
line from null to true. -/
def useNullAsDefaultTransform (line : String) : String :=
  if jsTrim line = "useNullAsDefault: null" then "\tuseNullAsDefault: true"
  else line

/-- Embedding of `Scaffold.setDatabase` (src/unnamed/part_000 lines
321-365) acting on the lines of `.env` and of `config/database.imba`:
returns both files unchanged when the database answer is `skip`, otherwise
rewrites `.env` with the connection transform and, exactly when the
connection is `sqlite`, also rewrites `config/database.imba`. -/
def setDatabase (database : Option String) (env dbCfg : List String) :
    List String × List String :=
  if database = some "skip" then (env, dbCfg)
  else
    (updateLine (dbConnectionTransform (connectionFor database)) env,
     if connectionFor database = "sqlite" then
       updateLine useNullAsDefaultTransform dbCfg
     else dbCfg)

/-- The specification reading of the set-database step for C6: only the
first line whose prefix matches is rewritten, all later lines are left
untouched. -/
def rewriteFirstDbConnection (conn : String) : List String → List String
  | [] => []
  | l :: ls =>
    if jsStartsWith l "DB_CONNECTION" = true then ("DB_CONNECTION=" ++ conn) :: ls
    else l :: rewriteFirstDbConnection conn ls

/-- Embedding of the install spawn of `Scaffold.install`
(src/unnamed/part_000 lines 136-139): the executable is the manager answer
defaulting to npm, and the argument list is the subcommand (add for yarn
with a non-empty dependency list, install otherwise) followed by the
dependencies and the legacy-peer-deps flag. -/
def install (manager : Option String) (deps : List String) : String × List String :=
  (manager.getD "npm",
   (if deps.length > 0 ∧ manager = some "yarn" then "add" else "install")
     :: (deps ++ ["--legacy-peer-deps"]))

/-- Kind of an archive entry, `entry.type` in `Scaffold.make`. -/
inductive EntryKind
  | directory
  | file
deriving DecidableEq

/-- An archive entry as observed by the extraction loop of `Scaffold.make`:
its path inside the archive, its kind, and whether streaming its bytes to
disk fails (the environment behavior the error callback reacts to). -/
structure ArchiveEntry where
  path : String
  kind : EntryKind
  writeFails : Bool
deriving DecidableEq

/-- Filesystem effects issued by the extraction loop. -/
inductive FsAction
  | mkdirRec (path : String)
  | writeFile (path : String)
  | logError (msg : String)
deriving DecidableEq

/-- Embedding of the Node `path.join(a, b)` calls at issue: joining with an
empty relative path returns the base directory. -/
def pathJoin (a b : String) : String := if b = "" then a else a ++ "/" ++ b

/-- Destination path of an archive entry in `Scaffold.make`
(src/unnamed/part_000 lines 96-100): the entry path is split on `/`, its
first segment is shifted off, the rest is rejoined and joined onto the
output directory. -/
def destPath (output p : String) : String :=
  pathJoin output (joinWith '/' ((jsSplit p '/').drop 1))

/-- Base name of an entry path, `entry.path.split('/').pop()` in
`Scaffold.make` (src/unnamed/part_000 line 105). -/
def entryBasename (p : String) : String := ((jsSplit p '/').getLast?).getD ""

/-- The per-entry body of the extraction loop of `Scaffold.make`
(src/unnamed/part_000 lines 95-115): directories are created recursively;
files other than `package-lock.json` are streamed to their destination,
and a failing stream logs an error without touching the success flag. -/
def processEntry (output : String) (e : ArchiveEntry) : List FsAction :=
  if e.kind = EntryKind.directory then
    [FsAction.mkdirRec (destPath output e.path)]
  else if entryBasename e.path ≠ "package-lock.json" then
    if e.writeFails then
      [FsAction.writeFile (destPath output e.path),
       FsAction.logError "Could not create Formidablejs application"]
    else [FsAction.writeFile (destPath output e.path)]
  else []

/-- Final scaffold state and issued filesystem actions after the download
continuation of `Scaffold.make` has run. -/
structure MakeResult where
  busy : Bool
  success : Bool
  actions : List FsAction
deriving DecidableEq

/-- Embedding of the download continuation of `Scaffold.make`
(src/unnamed/part_000 lines 87-118): busy is cleared, a failed download
sets success to false and returns, a successful one runs the extraction
loop over all entries and then sets success to true. -/
def makeRun (output : String) (downloadOk : Bool) (entries : List ArchiveEntry) :
    MakeResult :=
  if downloadOk then
    { busy := false, success := true,
      actions := (entries.map (processEntry output)).flatten }
  else
    { busy := false, success := false, actions := [] }

/-- A directory tree embedded as the list of directories created so far. -/
def insertAbsent (fs : List String) (d : String) : List String :=
  if d ∈ fs then fs else fs ++ [d]

/-- All ancestor prefixes of a path, innermost last: the directories that
`mkdirSync` with the recursive option creates when absent. -/
def pathPrefixes (p : String) : List String :=
  (List.range (jsSplit p '/').length).map
    (fun i => joinWith '/' ((jsSplit p '/').take (i + 1)))

/-- Embedding of `mkdirSync(entryPath, { recursive: true })`
(src/unnamed/part_000 line 103) on the directory-set model: creates the
directory and every absent ancestor. -/
def mkdirRecursive (fs : List String) (p : String) : List String :=
  (pathPrefixes p).foldl insertAbsent fs

/-- Observable events of the fetch-and-extract flow started by
`Scaffold.make`, in program order: the busy flag is set, the download
resolves, and on success the archive is opened and its entries are
enumerated before the success flag is set. -/
inductive ScaffoldEv
  | setBusy (b : Bool)
  | downloadResolved (ok : Bool)
  | openArchive
  | enumerateEntry (path : String)
  | setSuccess (b : Bool)
deriving DecidableEq

/-- Event trace of `Scaffold.make` (src/unnamed/part_000 lines 84-119) in
source order: busy is set true at the start of `make`, and set false at
the top of the download continuation, before the continuation checks the
response, opens the archive, or enumerates any entry. -/
def makeTrace (ok : Bool) (entries : List String) : List ScaffoldEv :=
  ScaffoldEv.setBusy true :: ScaffoldEv.downloadResolved ok :: ScaffoldEv.setBusy false ::
    (if ok then
      ScaffoldEv.openArchive ::
        (entries.map ScaffoldEv.enumerateEntry ++ [ScaffoldEv.setSuccess true])
    else [ScaffoldEv.setSuccess false])

/-- Event that clears the busy flag. -/
def isBusyClear : ScaffoldEv → Bool
  | ScaffoldEv.setBusy b => !b
  | _ => false

/-- Event belonging to archive opening or entry enumeration. -/
def isExtractionEv : ScaffoldEv → Bool
  | ScaffoldEv.openArchive => true
  | ScaffoldEv.enumerateEntry _ => true
  | _ => false

/-- The C2 temporal property as stated: in the trace, every clearing of the
busy flag comes strictly after every archive-opening or enumeration
event. -/
def busyHeldUntilExtracted (t : List ScaffoldEv) : Prop :=
  ∀ i, i < t.length → ∀ j, j < t.length →
    isBusyClear (t.getD i (ScaffoldEv.setBusy true)) = true →
    isExtractionEv (t.getD j (ScaffoldEv.setBusy true)) = true →
    j < i

instance (t : List ScaffoldEv) : Decidable (busyHeldUntilExtracted t) := by
  unfold busyHeldUntilExtracted
  infer_instance

/-- The values written to the busy flag, in trace order. -/
def busyOf : ScaffoldEv → Option Bool
  | ScaffoldEv.setBusy b => some b
  | _ => none

/-- The values written to the success flag, in trace order. -/
def successOf : ScaffoldEv → Option Bool
  | ScaffoldEv.setSuccess b => some b
  | _ => none

/-- Busy-flag writes of a trace. -/
def busyWrites (t : List ScaffoldEv) : List Bool := t.filterMap busyOf

/-- Success-flag writes of a trace. -/
def successWrites (t : List ScaffoldEv) : List Bool := t.filterMap successOf

/-- Outcome of the validation and scaffold gates of `New.run`. -/
inductive RunExit
  | invalidName
  | appExists
  | scaffoldFailed
  | completed
deriving DecidableEq

/-- A character allowed by the name pattern of `New.run`
(src/commands/new.ts line 89): the class `[a-z0-9-_]` with the
case-insensitive flag. -/
def validAppChar (c : Char) : Bool :=
  ('a' ≤ c && c ≤ 'z') || ('A' ≤ c && c ≤ 'Z') || ('0' ≤ c && c ≤ '9')
    || c == '-' || c == '_'

/-- Embedding of `/[^a-z0-9-_]/gi.test(args.name)`. -/
def nameHasInvalidChar (name : String) : Bool :=
  name.data.any (fun c => !(validAppChar c))

/-- Embedding of the gate sequence of `New.run` (src/commands/new.ts lines
89-160): the name check (which exempts the literal dot), the non-empty
current-directory check for the dot name, and the scaffold success check;
post-processing runs only when all three pass. The existence and emptiness
of the target directory and the scaffold result are inputs from the
environment. -/
def runGate (name : String) (dirExists dirEmpty scaffoldSuccess : Bool) : RunExit :=
  if nameHasInvalidChar name = true ∧ name ≠ "." then RunExit.invalidName
  else if dirExists = true ∧ (name = "." ∧ dirEmpty = false) then RunExit.appExists
  else if scaffoldSuccess = false then RunExit.scaffoldFailed
  else RunExit.completed

/-- Process exit status of each gate outcome: the oclif `error` helper
exits non-zero (status 2), the scaffold gate calls `this.exit(1)`, and a
completed run exits 0. -/
def exitStatus : RunExit → Nat
  | RunExit.invalidName => 2
  | RunExit.appExists => 2
  | RunExit.scaffoldFailed => 1
  | RunExit.completed => 0

/-- Whether the post-processing chain of `New.run` (install through cache,
src/commands/new.ts lines 162-171) is reached. -/
def runsPostProcessing : RunExit → Bool
  | RunExit.completed => true
  | _ => false

/-- C1: for every well-formed onboarding record the resolver returns the
concatenation of the four rule contributions in the fixed order stated by
the specification. -/
theorem getDependencies_rules (o : Onboarding) (h : WellFormedOnboarding o) :
    getDependencies o = claimedDependencies o := by
  obtain ⟨t, s, sc, d, m⟩ := o
  obtain ⟨ht, hs, hsc, hd⟩ := h
  simp only [List.mem_cons, List.not_mem_nil, or_false] at ht hs hsc hd
  rcases ht with rfl | rfl | rfl <;>
    rcases hs with rfl | rfl | rfl | rfl <;>
      rcases hsc with rfl | rfl | rfl <;>
        rcases hd with rfl | rfl | rfl | rfl | rfl | rfl | rfl <;>
          rfl

/-- Witness for C1: the concrete example from the specification, a
full-stack react project with database skipped, resolves to exactly the
pretty-errors and inertia packages. -/
theorem getDependencies_rules_witness :
    getDependencies ⟨some "full-stack", some "react", none, some "skip", none⟩
      = ["@formidablejs/pretty-errors", "@formidablejs/inertia"] :=
  (getDependencies_rules ⟨some "full-stack", some "react", none, some "skip", none⟩
    (by decide)).trans (by decide)

/-- Counterexample to C2: on a successful download with one archive entry,
the trace of `Scaffold.make` clears the busy flag at the top of the
continuation, before the archive is opened and before the entry is
enumerated, so busy does not remain true until enumeration finishes. -/
theorem make_busy_cleared_early :
    ¬ busyHeldUntilExtracted (makeTrace true ["formidablejs-main/README.md"]) := by
  decide

/-- Enumeration events carry no busy-flag write. -/
theorem busyWrites_enum (es : List String) :
    List.filterMap busyOf (es.map ScaffoldEv.enumerateEntry) = [] := by
  induction es with
  | nil => rfl
  | cons a t ih => simp [List.filterMap_cons, busyOf, ih]

/-- Enumeration events carry no success-flag write. -/
theorem successWrites_enum (es : List String) :
    List.filterMap successOf (es.map ScaffoldEv.enumerateEntry) = [] := by
  induction es with
  | nil => rfl
  | cons a t ih => simp [List.filterMap_cons, successOf, ih]

/-- C2 amended: over the whole `Scaffold.make` flow the busy flag is
written exactly twice (true then false) and the success flag exactly once
with the download result, but on a successful download busy is cleared at
trace position 2, strictly before the archive is opened at position 3. -/
theorem make_state_transitions (ok : Bool) (entries : List String) :
    busyWrites (makeTrace ok entries) = [true, false]
    ∧ successWrites (makeTrace ok entries) = [ok]
    ∧ (ok = true →
        isBusyClear ((makeTrace ok entries).getD 2 (ScaffoldEv.setBusy true)) = true
        ∧ (makeTrace ok entries).getD 3 (ScaffoldEv.setBusy true) = ScaffoldEv.openArchive) := by
  refine ⟨?_, ?_, ?_⟩
  · cases ok <;>
      simp [makeTrace, busyWrites, List.filterMap_cons, List.filterMap_append,
        busyOf, busyWrites_enum]
  · cases ok <;>
      simp [makeTrace, successWrites, List.filterMap_cons, List.filterMap_append,
        successOf, successWrites_enum]
  · intro h
    subst h
    exact ⟨rfl, rfl⟩

/-- Witness for C2 amended: the concrete successful trace with one entry
has the two busy writes and the archive opening at position 3, after the
busy flag was already cleared. -/
theorem make_state_transitions_witness :
    busyWrites (makeTrace true ["formidablejs-main/README.md"]) = [true, false]
    ∧ (makeTrace true ["formidablejs-main/README.md"]).getD 3 (ScaffoldEv.setBusy true)
        = ScaffoldEv.openArchive :=
  ⟨(make_state_transitions true ["formidablejs-main/README.md"]).1,
   ((make_state_transitions true ["formidablejs-main/README.md"]).2.2 rfl).2⟩

/-- C3: after the `Scaffold.make` continuation runs, the success flag
equals the download result, for every combination of entries — in
particular entries whose writes fail (they only log) never turn success
off. -/
theorem make_success_iff_download (output : String) (ok : Bool)
    (entries : List ArchiveEntry) :
    (makeRun output ok entries).success = ok := by
  cases ok <;> simp [makeRun]

/-- Membership is preserved by inserting a directory. -/
theorem mem_insertAbsent_of_mem {x : String} {fs : List String} (d : String)
    (h : x ∈ fs) : x ∈ insertAbsent fs d := by
  unfold insertAbsent
  split
  · exact h
  · exact List.mem_append_left _ h

/-- The inserted directory is a member afterwards. -/
theorem self_mem_insertAbsent (fs : List String) (d : String) :
    d ∈ insertAbsent fs d := by
  unfold insertAbsent
  split
  · assumption
  · simp

/-- Inserting an already-present directory changes nothing. -/
theorem insertAbsent_eq_of_mem {d : String} {fs : List String} (h : d ∈ fs) :
    insertAbsent fs d = fs := if_pos h

/-- Membership is preserved by a fold of insertions. -/
theorem mem_foldl_insertAbsent_of_mem (l : List String) (fs : List String)
    (x : String) (h : x ∈ fs) : x ∈ l.foldl insertAbsent fs := by
  induction l generalizing fs with
  | nil => exact h
  | cons a t ih => exact ih _ (mem_insertAbsent_of_mem a h)

/-- Every inserted directory is a member after the fold. -/
theorem mem_foldl_insertAbsent_self (l : List String) (fs : List String)
    (d : String) (h : d ∈ l) : d ∈ l.foldl insertAbsent fs := by
  induction l generalizing fs with
  | nil => cases h
  | cons a t ih =>
    rcases List.mem_cons.mp h with rfl | hmem
    · exact mem_foldl_insertAbsent_of_mem t _ d (self_mem_insertAbsent fs d)
    · exact ih _ hmem

/-- Inserting directories that are all already present is a no-op. -/
theorem foldl_insertAbsent_eq_of_subset (l : List String) (fs : List String)
    (h : ∀ d ∈ l, d ∈ fs) : l.foldl insertAbsent fs = fs := by
  induction l with
  | nil => rfl
  | cons a t ih =>
    have ha : insertAbsent fs a = fs := insertAbsent_eq_of_mem (h a (List.mem_cons_self a t))
    simp only [List.foldl_cons, ha]
    exact ih (fun d hd => h d (List.mem_cons_of_mem a hd))

/-- Recursive directory creation is idempotent on the directory set. -/
theorem mkdirRecursive_idem (fs : List String) (p : String) :
    mkdirRecursive (mkdirRecursive fs p) p = mkdirRecursive fs p := by
  unfold mkdirRecursive
  exact foldl_insertAbsent_eq_of_subset _ _
    (fun d hd => mem_foldl_insertAbsent_self _ _ _ hd)

/-- C4: directory entries are created recursively and idempotently at the
destination path (the entry path minus its first segment joined onto the
output directory), file entries are written to that destination exactly
when their base name is not `package-lock.json`, and the concrete archive
entry `repo-main/config/app.json` extracted to `/tmp/app` lands at
`/tmp/app/config/app.json`. -/
theorem extraction_entry_paths (output : String) (e : ArchiveEntry)
    (fs : List String) (p : String) :
    (e.kind = EntryKind.directory →
      processEntry output e = [FsAction.mkdirRec (destPath output e.path)])
    ∧ (e.kind = EntryKind.file →
        (FsAction.writeFile (destPath output e.path) ∈ processEntry output e
          ↔ entryBasename e.path ≠ "package-lock.json"))
    ∧ mkdirRecursive (mkdirRecursive fs p) p = mkdirRecursive fs p
    ∧ destPath "/tmp/app" "repo-main/config/app.json" = "/tmp/app/config/app.json" := by
  refine ⟨?_, ?_, mkdirRecursive_idem fs p, by decide⟩
  · intro h
    simp [processEntry, h]
  · intro h
    by_cases hb : entryBasename e.path = "package-lock.json"
    · simp [processEntry, h, hb]
    · cases hw : e.writeFails <;> simp [processEntry, h, hb, hw]

/-- Witness for C4: a concrete directory entry produces one recursive
directory creation at the stripped destination, and the concrete file
entry of the specification example is written to
`/tmp/app/config/app.json`. -/
theorem extraction_entry_paths_witness :
    processEntry "/tmp/app" ⟨"repo-main/config", EntryKind.directory, false⟩
      = [FsAction.mkdirRec "/tmp/app/config"]
    ∧ FsAction.writeFile "/tmp/app/config/app.json"
        ∈ processEntry "/tmp/app" ⟨"repo-main/config/app.json", EntryKind.file, false⟩ := by
  constructor
  · have h := (extraction_entry_paths "/tmp/app"
      ⟨"repo-main/config", EntryKind.directory, false⟩ [] "x").1 rfl
    rw [h]
    decide
  · have h := (extraction_entry_paths "/tmp/app"
      ⟨"repo-main/config/app.json", EntryKind.file, false⟩ [] "x").2.1 rfl
    have hd : destPath "/tmp/app" "repo-main/config/app.json" = "/tmp/app/config/app.json" := by
      decide
    rw [hd] at h
    exact h.mpr (by decide)

/-- Counterexample to C5: the name `.` contains a character outside the
class `[a-z0-9-_]`, yet when the target directory does not exist the run
proceeds with exit status 0 — the name check explicitly exempts the
literal dot, so "name contains a character outside the class" is not by
itself an exit case. -/
theorem new_run_dot_name_counterexample :
    nameHasInvalidChar "." = true
    ∧ runGate "." false true true = RunExit.completed
    ∧ exitStatus (runGate "." false true true) = 0 := by
  decide

/-- C5 amended: the run exits non-zero exactly when the name has a
character outside `[a-z0-9-_]` and is not the literal dot, or the name is
the dot and the current directory exists non-empty, or the scaffold was
unsuccessful; in the last case, with the earlier gates passed, the exit
status is 1 and no post-processing step runs. -/
theorem new_run_exit_cases (name : String)
    (dirExists dirEmpty scaffoldSuccess : Bool) :
    (runGate name dirExists dirEmpty scaffoldSuccess ≠ RunExit.completed ↔
      ((nameHasInvalidChar name = true ∧ name ≠ ".")
        ∨ (name = "." ∧ dirExists = true ∧ dirEmpty = false)
        ∨ scaffoldSuccess = false))
    ∧ (scaffoldSuccess = false →
        ¬(nameHasInvalidChar name = true ∧ name ≠ ".") →
        ¬(name = "." ∧ dirExists = true ∧ dirEmpty = false) →
        runGate name dirExists dirEmpty scaffoldSuccess = RunExit.scaffoldFailed
        ∧ exitStatus (runGate name dirExists dirEmpty scaffoldSuccess) = 1
        ∧ runsPostProcessing (runGate name dirExists dirEmpty scaffoldSuccess) = false)
    ∧ (∀ r, exitStatus r ≠ 0 ↔ r ≠ RunExit.completed)
    ∧ (∀ r, runsPostProcessing r = true ↔ r = RunExit.completed) := by
  refine ⟨?_, ?_, ?_, ?_⟩
  · unfold runGate
    split_ifs with h1 h2 h3 <;> simp_all
    tauto
  · intro hs h1 h2
    unfold runGate
    rw [if_neg h1, if_neg (by tauto), if_pos hs]
    exact ⟨rfl, rfl, rfl⟩
  · intro r
    cases r <;> simp [exitStatus]
  · intro r
    cases r <;> simp [runsPostProcessing]

/-- Witness for C5 amended: a valid name with a failed scaffold hits the
scaffold gate, exits with status 1 and runs no post-processing step. -/
theorem new_run_exit_cases_witness :
    runGate "my-app" false true false = RunExit.scaffoldFailed
    ∧ exitStatus (runGate "my-app" false true false) = 1
    ∧ runsPostProcessing (runGate "my-app" false true false) = false :=
  (new_run_exit_cases "my-app" false true false).2.1 rfl (by decide) (by decide)

/-- Counterexample to C6: with two lines whose prefix matches, the
set-database step rewrites both, not only the first as the claim states. -/
theorem setDatabase_first_line_counterexample :
    (setDatabase (some "pg") ["DB_CONNECTION=sqlite", "DB_CONNECTION=mysql"] []).1
      = ["DB_CONNECTION=pgsql", "DB_CONNECTION=pgsql"]
    ∧ rewriteFirstDbConnection "pgsql" ["DB_CONNECTION=sqlite", "DB_CONNECTION=mysql"]
        = ["DB_CONNECTION=pgsql", "DB_CONNECTION=mysql"]
    ∧ (["DB_CONNECTION=pgsql", "DB_CONNECTION=pgsql"] : List String)
        ≠ ["DB_CONNECTION=pgsql", "DB_CONNECTION=mysql"] := by
  decide

/-- C6 amended: for a recognized driver the set-database step maps the
driver through the fixed table, rewrites every `.env` line whose prefix is
`DB_CONNECTION` to `DB_CONNECTION=` plus the connection while leaving
every other line untouched, and exactly when the driver is `sqlite3` (the
one mapped to `sqlite`) also applies the `useNullAsDefault` rewrite to
`config/database.imba`. -/
theorem setDatabase_rewrites_env (d : String)
    (hd : d ∈ (["mysql", "pg", "sqlite3", "tedious", "oracledb"] : List String))
    (env dbCfg : List String) :
    ((setDatabase (some d) env dbCfg).1
        = env.map (dbConnectionTransform (connectionFor (some d))))
    ∧ ((setDatabase (some d) env dbCfg).2
        = if connectionFor (some d) = "sqlite" then
            dbCfg.map useNullAsDefaultTransform
          else dbCfg)
    ∧ (∀ l, jsStartsWith l "DB_CONNECTION" = true →
        dbConnectionTransform (connectionFor (some d)) l
          = "DB_CONNECTION=" ++ connectionFor (some d))
    ∧ (∀ l, jsStartsWith l "DB_CONNECTION" = false →
        dbConnectionTransform (connectionFor (some d)) l = l)
    ∧ (connectionFor (some d) = "sqlite" ↔ d = "sqlite3")
    ∧ connectionFor (some "mysql") = "mysql"
    ∧ connectionFor (some "pg") = "pgsql"
    ∧ connectionFor (some "sqlite3") = "sqlite"
    ∧ connectionFor (some "tedious") = "mssql"
    ∧ connectionFor (some "oracledb") = "oracle" := by
  have hne : some d ≠ some "skip" := by
    fin_cases hd <;> decide
  refine ⟨?_, ?_, ?_, ?_, ?_, rfl, rfl, rfl, rfl, rfl⟩
  · simp [setDatabase, hne, updateLine]
  · simp [setDatabase, hne, updateLine]
  · intro l hl
    simp [dbConnectionTransform, hl]
  · intro l hl
    simp [dbConnectionTransform, hl]
  · fin_cases hd <;> decide

/-- Witness for C6 amended: with driver `pg`, a `.env` consisting of the
line `DB_CONNECTION=sqlite` and an untouched comment line is rewritten to
`DB_CONNECTION=pgsql`, and the database config file is left alone. -/
theorem setDatabase_rewrites_env_witness :
    (setDatabase (some "pg") ["DB_CONNECTION=sqlite", "APP_NAME=formidable"]
        ["useNullAsDefault: null"]).1
      = ["DB_CONNECTION=pgsql", "APP_NAME=formidable"]
    ∧ (setDatabase (some "pg") ["DB_CONNECTION=sqlite", "APP_NAME=formidable"]
        ["useNullAsDefault: null"]).2
      = ["useNullAsDefault: null"] := by
  have h := setDatabase_rewrites_env "pg" (by decide)
    ["DB_CONNECTION=sqlite", "APP_NAME=formidable"] ["useNullAsDefault: null"]
  refine ⟨h.1.trans (by decide), (h.2.1.trans (by decide))⟩

/-- Counterexample to C7: a line that is not exactly equal to the
client-URL literal (it has leading whitespace, a different formatting of
the same semantic value) is nevertheless rewritten, because the transform
matches on the trimmed line — refuting the exact-match policy as stated. -/
theorem commentOutClientUrl_exact_match_counterexample :
    ("  CLIENT_URL=http://localhost:8000" : String) ≠ "CLIENT_URL=http://localhost:8000"
    ∧ commentOutClientUrl (some "full-stack") ["  CLIENT_URL=http://localhost:8000"]
        = ["# CLIENT_URL=http://localhost:8000"]
    ∧ ("# CLIENT_URL=http://localhost:8000" : String)
        ≠ "  CLIENT_URL=http://localhost:8000" := by
  decide

/-- C7 amended: the step does nothing unless the type is full-stack; when
it runs, its per-line transform rewrites exactly the lines whose trimmed
text equals the client-URL literal to the commented-out literal and leaves
every other line unchanged — in particular the exactly-equal line is
rewritten and a line with spaces around the equals sign (same semantic
value, different formatting) is untouched. -/
theorem commentOutClientUrl_spec (type : Option String) (env : List String)
    (l : String) :
    (type ≠ some "full-stack" → commentOutClientUrl type env = env)
    ∧ commentOutClientUrl (some "full-stack") env = env.map clientUrlTransform
    ∧ (jsTrim l = "CLIENT_URL=http://localhost:8000" →
        clientUrlTransform l = "# CLIENT_URL=http://localhost:8000")
    ∧ (jsTrim l ≠ "CLIENT_URL=http://localhost:8000" → clientUrlTransform l = l)
    ∧ clientUrlTransform "CLIENT_URL=http://localhost:8000"
        = "# CLIENT_URL=http://localhost:8000"
    ∧ clientUrlTransform "CLIENT_URL = http://localhost:8000"
        = "CLIENT_URL = http://localhost:8000" := by
  refine ⟨?_, ?_, ?_, ?_, by decide, by decide⟩
  · intro h
    simp [commentOutClientUrl, h]
  · simp [commentOutClientUrl, updateLine]
  · intro h
    simp [clientUrlTransform, h]
  · intro h
    simp [clientUrlTransform, h]

/-- Witness for C7 amended: an api-type run leaves the file alone, and the
trimmed-match transform leaves an unrelated line alone. -/
theorem commentOutClientUrl_spec_witness :
    commentOutClientUrl (some "api") ["CLIENT_URL=http://localhost:8000"]
      = ["CLIENT_URL=http://localhost:8000"]
    ∧ clientUrlTransform "APP_KEY=" = "APP_KEY=" :=
  ⟨(commentOutClientUrl_spec (some "api") ["CLIENT_URL=http://localhost:8000"]
      "APP_KEY=").1 (by decide),
   (commentOutClientUrl_spec (some "api") ["CLIENT_URL=http://localhost:8000"]
      "APP_KEY=").2.2.2.1 (by decide)⟩

/-- C8: each per-line transform the pipeline passes to the Line Mutator is
idempotent as a function on strings, applying the Line Mutator twice with
an idempotent transform equals applying it once, and a file in which no
line matches is rewritten identical. -/
theorem lineTransforms_idempotent :
    (∀ l, clientUrlTransform (clientUrlTransform l) = clientUrlTransform l)
    ∧ (∀ l, sessionDriverTransform (sessionDriverTransform l) = sessionDriverTransform l)
    ∧ (∀ l, sessionSameSiteTransform (sessionSameSiteTransform l) = sessionSameSiteTransform l)
    ∧ (∀ conn l, dbConnectionTransform conn (dbConnectionTransform conn l)
        = dbConnectionTransform conn l)
    ∧ (∀ l, useNullAsDefaultTransform (useNullAsDefaultTransform l) = useNullAsDefaultTransform l)
    ∧ (∀ f lines, (∀ l, f (f l) = f l) →
        updateLine f (updateLine f lines) = updateLine f lines)
    ∧ (∀ f lines, (∀ l ∈ lines, f l = l) → updateLine f lines = lines) := by
  refine ⟨?_, ?_, ?_, ?_, ?_, ?_, ?_⟩
  · intro l
    by_cases h : jsTrim l = "CLIENT_URL=http://localhost:8000" <;>
      simp [clientUrlTransform, h]
  · intro l
    by_cases h : jsTrim l = "driver: \x27memory\x27" <;>
      simp [sessionDriverTransform, h]
  · intro l
    by_cases h : jsTrim l = "same_site: helpers.env \x27SESSION_SAME_SITE\x27, \x27none\x27" <;>
      simp [sessionSameSiteTransform, h]
  · intro conn l
    by_cases h : jsStartsWith l "DB_CONNECTION" = true <;>
      simp [dbConnectionTransform, h]
  · intro l
    by_cases h : jsTrim l = "useNullAsDefault: null" <;>
      simp [useNullAsDefaultTransform, h]
  · intro f lines h
    unfold updateLine
    rw [List.map_map]
    exact List.map_congr_left (fun a _ => h a)
  · intro f lines h
    unfold updateLine
    exact List.map_congr_left h |>.trans (List.map_id lines)

/-- Witness for C8: applying the client-URL mutation twice to a concrete
two-line file equals applying it once, and a file with no matching line is
rewritten identical. -/
theorem lineTransforms_idempotent_witness :
    clientUrlTransform (clientUrlTransform "CLIENT_URL=http://localhost:8000")
      = clientUrlTransform "CLIENT_URL=http://localhost:8000"
    ∧ updateLine clientUrlTransform
        (updateLine clientUrlTransform ["CLIENT_URL=http://localhost:8000", "APP_KEY="])
      = updateLine clientUrlTransform ["CLIENT_URL=http://localhost:8000", "APP_KEY="]
    ∧ updateLine sessionDriverTransform ["APP_KEY=", "APP_PORT=3000"]
      = ["APP_KEY=", "APP_PORT=3000"] :=
  ⟨lineTransforms_idempotent.1 "CLIENT_URL=http://localhost:8000",
   lineTransforms_idempotent.2.2.2.2.2.1 clientUrlTransform
     ["CLIENT_URL=http://localhost:8000", "APP_KEY="] lineTransforms_idempotent.1,
   lineTransforms_idempotent.2.2.2.2.2.2 sessionDriverTransform
     ["APP_KEY=", "APP_PORT=3000"] (by decide)⟩

/-- C9: the install spawn uses the subcommand `add` exactly when the
dependency list is non-empty and the manager answer is yarn, `install` in
every other case; the executable defaults to npm when the manager answer
is null; and the legacy-peer-deps flag is always the final argument. -/
theorem install_subcommand (m : Option String) (deps : List String) :
    ((install m deps).2.head? = some "add" ↔ (deps ≠ [] ∧ m = some "yarn"))
    ∧ (¬(deps ≠ [] ∧ m = some "yarn") → (install m deps).2.head? = some "install")
    ∧ (install m deps).1 = m.getD "npm"
    ∧ (install m deps).2.getLast? = some "--legacy-peer-deps" := by
  have key : (deps.length > 0 ∧ m = some "yarn") ↔ (deps ≠ [] ∧ m = some "yarn") :=
    and_congr_left' List.length_pos
  refine ⟨?_, ?_, rfl, ?_⟩
  · rw [← key]
    by_cases h : deps.length > 0 ∧ m = some "yarn" <;> simp [install, h]
  · intro h
    have hlen : ¬(deps.length > 0 ∧ m = some "yarn") := fun hc => h (key.mp hc)
    simp [install, hlen]
  · show ((if deps.length > 0 ∧ m = some "yarn" then "add" else "install")
      :: (deps ++ ["--legacy-peer-deps"])).getLast? = some "--legacy-peer-deps"
    rw [← List.cons_append, List.getLast?_concat]

/-- Witness for C9: yarn with one dependency uses `add`, and the flag is
the final argument. -/
theorem install_subcommand_witness :
    (install (some "yarn") ["pg"]).2.head? = some "add"
    ∧ (install (some "yarn") ["pg"]).2.getLast? = some "--legacy-peer-deps"
    ∧ (install none []).2.head? = some "install"
    ∧ (install none []).1 = "npm" :=
  ⟨(install_subcommand (some "yarn") ["pg"]).1.mpr (by decide),
   (install_subcommand (some "yarn") ["pg"]).2.2.2,
   (install_subcommand none []).2.1 (by decide),
   (install_subcommand none []).2.2.1⟩

/-- C10: with a database answer that is neither skip nor a recognized
driver (including null), the set-database step still runs, rewrites every
`.env` line starting with `DB_CONNECTION` to the bare `DB_CONNECTION=`
(the connection stays the initial empty string), leaves all other `.env`
lines alone, and leaves `config/database.imba` untouched. -/
theorem setDatabase_unrecognized_driver (db : Option String)
    (h1 : db ≠ some "skip")
    (h2 : ∀ d ∈ (["mysql", "pg", "sqlite3", "tedious", "oracledb"] : List String),
      db ≠ some d)
    (env dbCfg : List String) :
    connectionFor db = ""
    ∧ (setDatabase db env dbCfg).1
        = env.map (fun l => if jsStartsWith l "DB_CONNECTION" = true then
            "DB_CONNECTION=" else l)
    ∧ (setDatabase db env dbCfg).2 = dbCfg := by
  have hc : connectionFor db = "" := by
    match db with
    | none => rfl
    | some d =>
      have hm : d ≠ "mysql" := fun h => h2 "mysql" (by decide) (by rw [h])
      have hp : d ≠ "pg" := fun h => h2 "pg" (by decide) (by rw [h])
      have hs : d ≠ "sqlite3" := fun h => h2 "sqlite3" (by decide) (by rw [h])
      have ht : d ≠ "tedious" := fun h => h2 "tedious" (by decide) (by rw [h])
      have ho : d ≠ "oracledb" := fun h => h2 "oracledb" (by decide) (by rw [h])
      simp [connectionFor, hm, hp, hs, ht, ho]
  refine ⟨hc, ?_, ?_⟩
  · rw [show (setDatabase db env dbCfg).1
        = updateLine (dbConnectionTransform (connectionFor db)) env from by
      simp [setDatabase, h1]]
    rw [hc]
    unfold updateLine dbConnectionTransform
    exact List.map_congr_left (fun l _ => by split <;> rfl)
  · simp [setDatabase, h1, hc]

/-- Witness for C10: an unrecognized driver identifier empties the
connection value on the matching line, leaves the other `.env` line and
the database config file untouched. -/
theorem setDatabase_unrecognized_driver_witness :
    (setDatabase (some "cassandra") ["DB_CONNECTION=mysql", "APP_NAME=formidable"]
        ["useNullAsDefault: null"]).1
      = ["DB_CONNECTION=", "APP_NAME=formidable"]
    ∧ (setDatabase (some "cassandra") ["DB_CONNECTION=mysql", "APP_NAME=formidable"]
        ["useNullAsDefault: null"]).2
      = ["useNullAsDefault: null"] := by
  have h := setDatabase_unrecognized_driver (some "cassandra") (by decide) (by decide)
    ["DB_CONNECTION=mysql", "APP_NAME=formidable"] ["useNullAsDefault: null"]
  exact ⟨h.2.1.trans (by decide), h.2.2⟩
